import Mathlib

/-!
Verification of the pose-to-3D alignment pipeline of the AR wardrobe viewer
(`src/FaceMeshViewer.jsx`, the MediaPipe Holistic version with
`VIDEO_WIDTH = 720`, `VIDEO_HEIGHT = 620`).

JavaScript numbers are modelled as real numbers.  For the unprojection
function `uvToWorld`, whose claimed guard concerns division by a zero ray
component, arithmetic is instead modelled by `JNum`: a real number or the
absorbing element `nonfin`, which stands for the non-finite values
(NaN / ±Infinity) that JavaScript division by zero produces and that every
subsequent JavaScript arithmetic operation in this code propagates.

Branch conditions of the embedded code are kept on `Nat`/`Bool`/`Option`
constructors wherever the source branches on array length or missing
entries, so that concrete runs reduce definitionally.
-/

set_option maxRecDepth 8000

noncomputable section

namespace ARWardrobe

/-- A 3D point with real coordinates, as produced by the landmark detector
and by the Three.js math used in `FaceMeshViewer.jsx`. -/
@[ext]
structure Point3 where
  x : ℝ
  y : ℝ
  z : ℝ

/-- Euler rotation `{pitch, yaw, roll}` in radians. -/
@[ext]
structure Rotation where
  pitch : ℝ
  yaw : ℝ
  roll : ℝ

/-- `const VIDEO_WIDTH = 720`. -/
def VIDEO_WIDTH : ℝ := 720

/-- `const VIDEO_HEIGHT = 620`. -/
def VIDEO_HEIGHT : ℝ := 620

/-- JavaScript truncation toward zero, used by the `%` remainder operator. -/
def jsTrunc (q : ℝ) : ℤ := if 0 ≤ q then ⌊q⌋ else ⌈q⌉

/-- The JavaScript remainder operator `x % y`: the result has the sign of the
dividend, `x % y = x - y * trunc (x / y)`. -/
def jsRem (x y : ℝ) : ℝ := x - y * jsTrunc (x / y)

/-- The two intermediate lines of `lerpShortestAngle`:
`diff = (b - a) % (Math.PI * 2)` and
`shortestDiff = 2 * diff % (Math.PI * 2) - diff`
(JS `*` and `%` share precedence and associate left, so this is
`((2 * diff) % (2π)) - diff`). -/
def shortestAngleDiff (a b : ℝ) : ℝ :=
  jsRem (2 * jsRem (b - a) (Real.pi * 2)) (Real.pi * 2) - jsRem (b - a) (Real.pi * 2)

/-- `function lerpShortestAngle(a, b, t)` from `FaceMeshViewer.jsx`:
`return a + shortestDiff * t`. -/
def lerpShortestAngle (a b t : ℝ) : ℝ := a + shortestAngleDiff a b * t

/-- `THREE.MathUtils.lerp(x, y, t) = x + (y - x) * t`. -/
def lerp (x y t : ℝ) : ℝ := x + (y - x) * t

/-- `Math.atan2(y, x)` on real arguments (JS convention:
`atan2(0, 0) = 0`, `atan2(0, x) = π` for `x < 0`). -/
def jsAtan2 (y x : ℝ) : ℝ :=
  if 0 < x then Real.arctan (y / x)
  else if x < 0 then
    (if 0 ≤ y then Real.arctan (y / x) + Real.pi else Real.arctan (y / x) - Real.pi)
  else if 0 < y then Real.pi / 2
  else if y < 0 then -(Real.pi / 2)
  else 0

/-- A per-frame landmark record: index-addressable, an absent index (array
hole, out-of-bounds access, or missing entry) reads as `none`, mirroring the
JavaScript `undefined`/`null` that the strategies null-check. -/
def LandmarkSet : Type := ℕ → Option Point3

/-- JavaScript array indexing `landmarks[i]` on a plain array. -/
def asLandmarkSet (l : List Point3) : LandmarkSet := fun i => l[i]?

/-- The `SMOOTHING` constant: `{position: 0.3, scale: 0.3, rotation: 0.4}`. -/
structure SmoothingFactors where
  position : ℝ
  scale : ℝ
  rotation : ℝ

/-- `const SMOOTHING = { position: 0.3, scale: 0.3, rotation: 0.4 }`. -/
def SMOOTHING : SmoothingFactors := ⟨0.3, 0.3, 0.4⟩

/-- The result object a strategy returns.  The failure branches of the source
return the literal `{ visible: false }`; its other fields are absent in
JavaScript and modelled here by default values, which no caller reads when
`visible` is `false`. -/
@[ext]
structure Alignment where
  visible : Bool
  position : Point3 := ⟨0, 0, 0⟩
  positions : List Point3 := []
  rotation : Rotation := ⟨0, 0, 0⟩
  scale : ℝ := 0
  isMultiple : Bool := false

/-- `convertFaceLandmarksToPixelPoints`: guards `!faceLandmarks ||
!faceLandmarks.length`, then maps each normalized landmark to pixel space
(`x * VIDEO_WIDTH`, `y * VIDEO_HEIGHT`, `z * VIDEO_WIDTH`). -/
def toPixelPoint (lm : Point3) : Point3 :=
  ⟨lm.x * VIDEO_WIDTH, lm.y * VIDEO_HEIGHT, lm.z * VIDEO_WIDTH⟩

/-- `convertFaceLandmarksToPixelPoints(faceLandmarks)`. -/
def convertFaceLandmarksToPixelPoints (faceLandmarks : Option (List Point3)) :
    Option (List Point3) :=
  match faceLandmarks with
  | none => none
  | some l => if l.length = 0 then none else some (l.map toPixelPoint)

/-- `convertPoseLandmarksToPixelPoints(poseLandmarks)` (same body). -/
def convertPoseLandmarksToPixelPoints (poseLandmarks : Option (List Point3)) :
    Option (List Point3) :=
  match poseLandmarks with
  | none => none
  | some l => if l.length = 0 then none else some (l.map toPixelPoint)

/-- The inner helper `averagePoints(landmarks, indices)` of the earrings
strategy: keep the present entries (`.filter(Boolean)`), return `null` when
none remain, otherwise average them componentwise. -/
def averagePoints (landmarks : LandmarkSet) (indices : List ℕ) : Option Point3 :=
  let pts := indices.filterMap landmarks
  if pts.length = 0 then none
  else
    some ⟨(pts.map Point3.x).sum / pts.length, (pts.map Point3.y).sum / pts.length,
      (pts.map Point3.z).sum / pts.length⟩

/-- `AccessoryAlignmentStrategies[GLASSES]`.  The `uvToWorld` closure is a
parameter, exactly as in the source (`(landmarks, uvToWorld) => ...`).
Landmark indices: `leftEyeCenter = 159`, `rightEyeCenter = 386`,
`noseTip = 1`. -/
def glassesAlignment (landmarks : LandmarkSet) (uvw : ℝ → ℝ → ℝ → Point3) :
    Alignment :=
  match landmarks 159, landmarks 386, landmarks 1 with
  | some leftEye, some rightEye, some noseTip =>
    let glassesCenter : Point3 :=
      ⟨(leftEye.x + rightEye.x) / 2,
       (leftEye.y + rightEye.y) / 2 + 0.01 * VIDEO_HEIGHT,
       (leftEye.z + rightEye.z) / 2 - 0.05 * VIDEO_WIDTH⟩
    let normalizedCenter : Point3 :=
      ⟨glassesCenter.x / VIDEO_WIDTH, glassesCenter.y / VIDEO_HEIGHT - 0.02,
       glassesCenter.z / VIDEO_WIDTH⟩
    let world := uvw normalizedCenter.x normalizedCenter.y (-0.1)
    let eyeDistancePixels := Real.sqrt ((rightEye.x - leftEye.x) ^ 2 +
      (rightEye.y - leftEye.y) ^ 2 + (rightEye.z - leftEye.z) ^ 2)
    let eyeDistanceNormalized := eyeDistancePixels / VIDEO_WIDTH
    let scale := max 0.5 (min 4.0 (eyeDistanceNormalized * 20))
    let roll := -jsAtan2 (rightEye.y - leftEye.y) (rightEye.x - leftEye.x)
    let eyeMidpointX := (leftEye.x + rightEye.x) / 2
    let eyeMidpointY := (leftEye.y + rightEye.y) / 2
    let yaw := jsAtan2 (noseTip.x - eyeMidpointX) eyeDistancePixels * 0.8
    let pitch := jsAtan2 (noseTip.y - eyeMidpointY) (eyeDistancePixels * 0.8) - 0.8
    { visible := true, position := world, rotation := ⟨pitch, yaw, roll⟩,
      scale := scale }
  | _, _, _ => { visible := false }

/-- `AccessoryAlignmentStrategies[EARRINGS]`.  Ear anchors are averages of the
4-point clusters `[234, 93, 132, 127]` and `[454, 323, 361, 356]`; the
null-checks are on the two averaged anchors and the two eye centers. -/
def earringsAlignment (landmarks : LandmarkSet) (uvw : ℝ → ℝ → ℝ → Point3) :
    Alignment :=
  match averagePoints landmarks [234, 93, 132, 127],
      averagePoints landmarks [454, 323, 361, 356],
      landmarks 159, landmarks 386 with
  | some leftEarLobe, some rightEarLobe, some leftEyeCenter, some rightEyeCenter =>
    let leftEarringPos : Point3 :=
      ⟨leftEarLobe.x / VIDEO_WIDTH - 0.009, leftEarLobe.y / VIDEO_HEIGHT + 0.04,
       leftEarLobe.z / VIDEO_WIDTH⟩
    let rightEarringPos : Point3 :=
      ⟨rightEarLobe.x / VIDEO_WIDTH + 0.009, rightEarLobe.y / VIDEO_HEIGHT + 0.04,
       rightEarLobe.z / VIDEO_WIDTH⟩
    let leftWorld := uvw leftEarringPos.x leftEarringPos.y (-0.25)
    let rightWorld := uvw rightEarringPos.x rightEarringPos.y (-0.25)
    let eyeDistance := Real.sqrt ((rightEyeCenter.x - leftEyeCenter.x) ^ 2 +
      (rightEyeCenter.y - leftEyeCenter.y) ^ 2)
    let scale := max 0.3 (min 3.0 (eyeDistance / VIDEO_WIDTH * 12))
    let roll := -jsAtan2 (rightEyeCenter.y - leftEyeCenter.y)
      (rightEyeCenter.x - leftEyeCenter.x)
    { visible := true, positions := [leftWorld, rightWorld],
      rotation := ⟨0, 0, roll⟩, scale := scale, isMultiple := true }
  | _, _, _, _ => { visible := false }

/-- `AccessoryAlignmentStrategies[NECKLACE]`: consumes raw normalized pose
landmarks; requires shoulders 11 and 12 only.  (The `console.log` call of the
source is a pure side effect and is not modelled.) -/
def necklaceAlignment (landmarks : LandmarkSet) (uvw : ℝ → ℝ → ℝ → Point3) :
    Alignment :=
  match landmarks 11, landmarks 12 with
  | some leftShoulder, some rightShoulder =>
    let centerX := (leftShoulder.x + rightShoulder.x) / 2
    let centerY := (leftShoulder.y + rightShoulder.y) / 2 - 0.06
    let centerZ := (leftShoulder.z + rightShoulder.z) / 2
    let world := uvw centerX centerY centerZ
    let shoulderDist := Real.sqrt ((rightShoulder.x - leftShoulder.x) ^ 2 +
      (rightShoulder.y - leftShoulder.y) ^ 2)
    let scale := max 0.1 (min 4.0 (shoulderDist * 6))
    { visible := true, position := world, rotation := ⟨0, 0, 0⟩, scale := scale }
  | _, _ => { visible := false }

/-- The smoothing block of `AccessoryAlignmentStrategies[T_SHIRT]` (lines
904-911): when `lastTShirtAlignment` is set, lerp position and scale toward
the candidate and smooth yaw with `lerpShortestAngle`; otherwise the candidate
is used unchanged.  Pitch and roll are not smoothed. -/
def smoothTShirt (f : SmoothingFactors) (last : Option Alignment)
    (next : Alignment) : Alignment :=
  match last with
  | none => next
  | some prev =>
    { next with
      position := ⟨lerp prev.position.x next.position.x f.position,
        lerp prev.position.y next.position.y f.position,
        lerp prev.position.z next.position.z f.position⟩,
      scale := lerp prev.scale next.scale f.scale,
      rotation := { next.rotation with
        yaw := lerpShortestAngle prev.rotation.yaw next.rotation.yaw f.rotation } }

/-- `AccessoryAlignmentStrategies[T_SHIRT]`.  The module-level mutable
`lastTShirtAlignment` is passed in and returned explicitly: the strategy
returns its alignment together with the new value of the variable (assigned
`{ ...alignment }` on the success path, untouched on the failure path). -/
def tShirtAlignment (last : Option Alignment) (landmarks : LandmarkSet)
    (uvw : ℝ → ℝ → ℝ → Point3) : Alignment × Option Alignment :=
  match landmarks 11, landmarks 12, landmarks 23, landmarks 24 with
  | some leftShoulder, some rightShoulder, some leftHip, some rightHip =>
    let shoulderVec : Point3 := ⟨rightShoulder.x - leftShoulder.x,
      rightShoulder.y - leftShoulder.y, rightShoulder.z - leftShoulder.z⟩
    let shoulderCenter : Point3 := ⟨(leftShoulder.x + rightShoulder.x) / 2,
      (leftShoulder.y + rightShoulder.y) / 2, (leftShoulder.z + rightShoulder.z) / 2⟩
    let hipCenter : Point3 := ⟨(leftHip.x + rightHip.x) / 2,
      (leftHip.y + rightHip.y) / 2, (leftHip.z + rightHip.z) / 2⟩
    let torsoCenter : Point3 := ⟨(shoulderCenter.x + hipCenter.x) / 2,
      shoulderCenter.y + (hipCenter.y - shoulderCenter.y) * 0.2,
      (shoulderCenter.z + hipCenter.z) / 2 - 0.1⟩
    let world := uvw torsoCenter.x torsoCenter.y torsoCenter.z
    let shoulderDist := Real.sqrt ((rightShoulder.x - leftShoulder.x) ^ 2 +
      (rightShoulder.y - leftShoulder.y) ^ 2)
    let torsoHeight := |shoulderCenter.y - hipCenter.y|
    let scale := max (shoulderDist * 4) (torsoHeight * 1.8)
    let targetYaw := jsAtan2 shoulderVec.z shoulderVec.x + Real.pi
    let candidate : Alignment :=
      { visible := true, position := world, rotation := ⟨0, targetYaw, 0⟩,
        scale := scale }
    let alignment := smoothTShirt SMOOTHING last candidate
    (alignment, some alignment)
  | _, _, _, _ => ({ visible := false }, last)

/-- A Three.js scene object as far as the viewer mutates it: visibility,
transform. -/
@[ext]
structure SceneObject where
  visible : Bool := false
  position : Point3 := ⟨0, 0, 0⟩
  rotation : Rotation := ⟨0, 0, 0⟩
  scale : ℝ := 0.1

/-- The mutable refs of `FaceMeshViewer` that the accessory-swap and
per-frame paths touch: `accessoryRef.current`,
`accessoryInstancesRef.current`, and the module-level
`lastTShirtAlignment`. -/
structure ViewerState where
  accessoryObj : Option SceneObject
  instances : List SceneObject
  lastTShirtAlignment : Option Alignment

/-- `cleanupAccessories()` (lines 1009-1021): removes the single accessory and
all instances from the scene.  It does not touch `lastTShirtAlignment`. -/
def cleanupAccessories (s : ViewerState) : ViewerState :=
  { s with accessoryObj := none, instances := [] }

/-- `hideAllAccessories()`: sets `visible = false` on the accessory and every
instance. -/
def hideAllAccessories (s : ViewerState) : ViewerState :=
  { s with
    accessoryObj := s.accessoryObj.map (fun o => { o with visible := false }),
    instances := s.instances.map (fun o => { o with visible := false }) }

/-- The per-object assignment block of `updateAccessoryAlignment`: position,
per-axis rotation, and the scale clamp
`Math.max(0.1, Math.min(4.0, alignment.scale))`. -/
def applyAlignmentTo (al : Alignment) (p : Point3) (o : SceneObject) :
    SceneObject :=
  { o with
    visible := true
    position := p
    rotation := al.rotation
    scale := max 0.1 (min 4.0 al.scale) }

/-- `alignment.positions.forEach((pos, index) => { if (instances[index]) ... })`:
instance `i` is updated with position `i`; instances beyond the positions list
are left untouched, positions beyond the instance list are ignored. -/
def updateInstances (al : Alignment) : List Point3 → List SceneObject →
    List SceneObject
  | _, [] => []
  | [], o :: os => o :: updateInstances al [] os
  | p :: ps, o :: os => applyAlignmentTo al p o :: updateInstances al ps os

/-- `updateAccessoryAlignment(alignment)` (lines 1201-1251), restricted to the
scene-graph mutations (the render call and debug string are side effects on
the renderer only). -/
def updateAccessoryAlignment (a : Option Alignment) (s : ViewerState) :
    ViewerState :=
  match a with
  | none => hideAllAccessories s
  | some al =>
    if al.visible then
      if al.isMultiple && !s.instances.isEmpty then
        { s with instances := updateInstances al al.positions s.instances }
      else
        match s.accessoryObj with
        | some o => { s with accessoryObj := some (applyAlignmentTo al al.position o) }
        | none => s
    else hideAllAccessories s

/-- The face occluder mesh as far as `updateFaceOccluderFromFaceLandmarks`
mutates it: visibility, the flat vertex position buffer, and the index
buffer. -/
structure Occluder where
  visible : Bool
  positions : List ℝ
  indices : List ℕ

/-- Modelled from the spec: `FACEMESH_TRIANGULATION` is imported from
`./triangulation`, a file not present in the sources.  Per the spec it is a
fixed, precomputed triangulation table matching the detector's canonical
face-mesh topology, i.e. a list of vertex-index triangles; `.flat()` turns it
into the flat index buffer handed to `geometry.setIndex`. -/
def flattenTriangulation (tri : List (ℕ × ℕ × ℕ)) : List ℕ :=
  tri.flatMap (fun t => [t.1, t.2.1, t.2.2])

/-- `updateFaceOccluderFromFaceLandmarks(facePoints)` (lines 1163-1190): with
fewer than 468 points the occluder is hidden and its geometry untouched;
otherwise each pixel-space point is unprojected at plane depth `-0.15` and
pushed as three floats, and the triangulation table becomes the index
buffer.  The `uvToWorld` closure and the triangulation table are passed
explicitly. -/
def updateFaceOccluderFromFaceLandmarks (uvw : ℝ → ℝ → ℝ → Point3)
    (tri : List (ℕ × ℕ × ℕ)) (facePoints : Option (List Point3))
    (occ : Occluder) : Occluder :=
  match facePoints with
  | none => { occ with visible := false }
  | some pts =>
    if pts.length < 468 then { occ with visible := false }
    else
      let vertices := pts.flatMap (fun lm =>
        let worldPos := uvw (lm.x / VIDEO_WIDTH) (lm.y / VIDEO_HEIGHT) (-0.15)
        [worldPos.x, worldPos.y, worldPos.z])
      { visible := true, positions := vertices, indices := flattenTriangulation tri }

/-- JavaScript float values for the unprojection code: a finite real, or
`nonfin` for the non-finite values (NaN, ±Infinity) that division by zero
produces.  Every arithmetic operation the code applies afterwards propagates
them (`x + NaN`, `x * Infinity * 0`, ... are non-finite). -/
inductive JNum where
  | fin : ℝ → JNum
  | nonfin : JNum

/-- Addition on JS floats, absorbing non-finite operands. -/
def JNum.add : JNum → JNum → JNum
  | .fin a, .fin b => .fin (a + b)
  | _, _ => .nonfin

/-- Multiplication on JS floats, absorbing non-finite operands (in the code's
use the finite factor can be 0, and JS `0 * Infinity = NaN`). -/
def JNum.mul : JNum → JNum → JNum
  | .fin a, .fin b => .fin (a * b)
  | _, _ => .nonfin

/-- Division on JS floats: division by zero yields a non-finite value
(`x / 0 = ±Infinity`, `0 / 0 = NaN`), collapsed to `nonfin`. -/
def JNum.div : JNum → JNum → JNum
  | .fin a, .fin b => if b = 0 then .nonfin else .fin (a / b)
  | _, _ => .nonfin

/-- A 3D point whose components are JS floats. -/
structure JPoint where
  x : JNum
  y : JNum
  z : JNum

/-- The camera state snapshot `cameraRef.current` that `uvToWorld` reads: its
world position, and the `Vector3.unproject` map through its inverse
view-projection (external Three.js matrix math, total on real inputs). -/
structure Cam where
  pos : Point3
  unprojNDC : Point3 → Point3

/-- `uvToWorld(u, v, planeZ)` (lines 1192-1199): build the NDC point with
Y-flip at depth 0.5, unproject it, normalize the ray direction
(`.normalize()` divides by the length), intersect with the plane
`z = planeZ` via `t = (planeZ - cam.position.z) / dir.z`, and return
`cam.position + dir * t`.  There is no conditional anywhere in the body. -/
def uvToWorld (cam : Cam) (u v planeZ : ℝ) : JPoint :=
  let ndc : Point3 := ⟨u * 2 - 1, 1 - v * 2, 0.5⟩
  let p := cam.unprojNDC ndc
  let dx := p.x - cam.pos.x
  let dy := p.y - cam.pos.y
  let dz := p.z - cam.pos.z
  let len := Real.sqrt (dx ^ 2 + dy ^ 2 + dz ^ 2)
  let dirx := JNum.div (.fin dx) (.fin len)
  let diry := JNum.div (.fin dy) (.fin len)
  let dirz := JNum.div (.fin dz) (.fin len)
  let t := JNum.div (.fin (planeZ - cam.pos.z)) dirz
  ⟨JNum.add (.fin cam.pos.x) (JNum.mul dirx t),
   JNum.add (.fin cam.pos.y) (JNum.mul diry t),
   JNum.add (.fin cam.pos.z) (JNum.mul dirz t)⟩

/-- The unnormalized ray direction's z-component for a given camera and
screen coordinate (the quantity whose vanishing makes the ray parallel to the
target plane). -/
def rayDirZ (cam : Cam) (u v : ℝ) : ℝ :=
  (cam.unprojNDC ⟨u * 2 - 1, 1 - v * 2, 0.5⟩).z - cam.pos.z

/-- A trivial stand-in for the `uvToWorld` closure where a strategy's output
field under test does not depend on it (the visibility flags, roll and scale
of every strategy are computed before and independently of unprojection). -/
def uvId : ℝ → ℝ → ℝ → Point3 := fun u v planeZ => ⟨u, v, planeZ⟩

/-- A camera state with its view direction orthogonal to the z-axis
(looking sideways), for which the unprojected ray of the screen center row
has a zero z-component. -/
def camSide : Cam := ⟨⟨0, 0, 1⟩, fun n => ⟨n.x, n.y, 1⟩⟩

/-- A second sideways camera state, used to instantiate the general
no-guard theorem. -/
def camSide2 : Cam := ⟨⟨0, 0, 1⟩, fun n => ⟨n.y, n.x, 1⟩⟩

/-- A face landmark list with 400 entries (fewer than 468), all at the image
center. -/
def face400 : List Point3 := List.replicate 400 ⟨0.5, 0.5, 0⟩

/-- A full landmark record in which exactly the named index 234
(`LANDMARK_INDICES.leftEarLobe`, the first point of the left-ear cluster) is
missing. -/
def faceMissing234 : LandmarkSet := fun i =>
  if i = 234 then none else if i < 468 then some ⟨1, 1, 0⟩ else none

/-- The empty landmark record (every index missing). -/
def noLandmarks : LandmarkSet := fun _ => none

/-- A normalized pose record with shoulders (11, 12) and hips (23, 24)
present: shoulders at height 0.5 and 0.6 apart, hips at height 0.9. -/
def poseFull : LandmarkSet := fun i =>
  if i = 11 then some ⟨0.2, 0.5, 0⟩
  else if i = 12 then some ⟨0.8, 0.5, 0⟩
  else if i = 23 then some ⟨0.3, 0.9, 0⟩
  else if i = 24 then some ⟨0.7, 0.9, 0⟩
  else none

/-- A pose record with both shoulders present and both hips missing (the
spec's 31-of-33 scenario). -/
def poseNoHips : LandmarkSet := fun i =>
  if i = 11 then some ⟨0.2, 0.5, 0⟩
  else if i = 12 then some ⟨0.8, 0.5, 0⟩
  else if i < 23 then some ⟨0.5, 0.7, 0⟩
  else none

/-- A t-shirt placement left over from before an accessory swap. -/
def stalePlacement : Alignment :=
  { visible := true, position := ⟨0, 0, 0⟩, rotation := ⟨0, 0, 0⟩, scale := 1 }

/-- A viewer state holding the stale placement when the accessory changes. -/
def staleState : ViewerState := ⟨some {}, [], some stalePlacement⟩

/-- A face landmark record for the front-facing, level-head scenario:
eye centers 159 and 386 at equal height and depth, 72 pixels apart, nose tip
present. -/
def levelFace : LandmarkSet := fun i =>
  if i = 159 then some ⟨300, 200, 0⟩
  else if i = 386 then some ⟨372, 200, 0⟩
  else if i = 1 then some ⟨336, 240, 0⟩
  else if i < 468 then some ⟨336, 220, 0⟩
  else none

/-- An alignment with an out-of-range scale, as the unclamped t-shirt
strategy can produce. -/
def hugeScaleAlignment : Alignment :=
  { visible := true, position := ⟨0, 0, -0.3⟩, rotation := ⟨0, 0, 0⟩, scale := 100 }

/-- A scene state with one loaded single-instance accessory object. -/
def singleAccessoryState : ViewerState := ⟨some {}, [], none⟩

/-- The scene object produced by applying the out-of-range alignment to the
loaded accessory. -/
def alignedObj : SceneObject :=
  applyAlignmentTo hugeScaleAlignment hugeScaleAlignment.position {}

end ARWardrobe

namespace ARWardrobe

theorem jsTrunc_of_nonneg {q : ℝ} (h : 0 ≤ q) : jsTrunc q = ⌊q⌋ := if_pos h

theorem jsTrunc_of_neg {q : ℝ} (h : q < 0) : jsTrunc q = ⌈q⌉ := if_neg (not_le.mpr h)

theorem jsAtan2_zero_of_pos {x : ℝ} (hx : 0 < x) : jsAtan2 0 x = 0 := by
  simp [jsAtan2, hx]

/-- The JS remainder is bounded in magnitude by the (positive) divisor. -/
theorem abs_jsRem_lt (x : ℝ) {y : ℝ} (hy : 0 < y) : |jsRem x y| < y := by
  have hyne : y ≠ 0 := ne_of_gt hy
  have hx : x = y * (x / y) := by field_simp
  set q := x / y with hq
  have hrem : jsRem x y = y * (q - (jsTrunc q : ℝ)) := by
    rw [jsRem, ← hq]
    nth_rewrite 1 [hx]
    ring
  have habs : |q - (jsTrunc q : ℝ)| < 1 := by
    rcases le_or_lt 0 q with h0 | h0
    · rw [jsTrunc_of_nonneg h0]
      have h1 : q - (⌊q⌋ : ℝ) = Int.fract q := rfl
      rw [h1, abs_of_nonneg (Int.fract_nonneg q)]
      exact Int.fract_lt_one q
    · rw [jsTrunc_of_neg h0]
      have hle : q ≤ (⌈q⌉ : ℝ) := Int.le_ceil q
      have hlt : (⌈q⌉ : ℝ) < q + 1 := Int.ceil_lt_add_one q
      rw [abs_sub_comm, abs_of_nonneg (by linarith)]
      linarith
  calc |jsRem x y| = |y| * |q - (jsTrunc q : ℝ)| := by rw [hrem, abs_mul]
    _ = y * |q - (jsTrunc q : ℝ)| := by rw [abs_of_pos hy]
    _ < y * 1 := by exact mul_lt_mul_of_pos_left habs hy
    _ = y := mul_one y

/-- `shortestAngleDiff` is congruent to `b - a` modulo `2π` and has magnitude
at most `π` (the wrapped difference lands in the closed interval `[-π, π]`). -/
theorem shortestAngleDiff_spec (a b : ℝ) :
    (∃ k : ℤ, shortestAngleDiff a b = (b - a) + Real.pi * 2 * k) ∧
    |shortestAngleDiff a b| ≤ Real.pi := by
  have hpi : (0:ℝ) < Real.pi := Real.pi_pos
  have h2pi : (0:ℝ) < Real.pi * 2 := by linarith
  set d := jsRem (b - a) (Real.pi * 2) with hd
  have hdb : |d| < Real.pi * 2 := abs_jsRem_lt (b - a) h2pi
  have hq : 2 * d / (Real.pi * 2) = d / Real.pi := by
    field_simp
    ring
  have hsd : shortestAngleDiff a b =
      2 * d - Real.pi * 2 * (jsTrunc (d / Real.pi) : ℝ) - d := by
    rw [shortestAngleDiff, ← hd, jsRem, hq]
  constructor
  · refine ⟨-(jsTrunc ((b - a) / (Real.pi * 2)) + jsTrunc (d / Real.pi)), ?_⟩
    have hdval : d = (b - a) - Real.pi * 2 * (jsTrunc ((b - a) / (Real.pi * 2)) : ℝ) := by
      rw [hd, jsRem]
    rw [hsd]
    push_cast
    rw [hdval]
    ring
  · rcases le_or_lt 0 d with h0 | h0
    · have hqnn : 0 ≤ d / Real.pi := div_nonneg h0 hpi.le
      rcases lt_or_le d Real.pi with h1 | h1
      · have hfl : jsTrunc (d / Real.pi) = 0 := by
          rw [jsTrunc_of_nonneg hqnn]
          rw [Int.floor_eq_zero_iff, Set.mem_Ico]
          refine ⟨hqnn, ?_⟩
          rw [div_lt_one hpi]
          exact h1
        rw [hsd, hfl]
        rw [abs_le]
        constructor <;> push_cast <;> nlinarith
      · have hfl : jsTrunc (d / Real.pi) = 1 := by
          rw [jsTrunc_of_nonneg hqnn]
          rw [Int.floor_eq_iff]
          constructor
          · push_cast
            rw [le_div_iff hpi]
            linarith
          · push_cast
            rw [div_lt_iff hpi]
            have : d < Real.pi * 2 := lt_of_abs_lt hdb
            linarith
        rw [hsd, hfl]
        rw [abs_le]
        have hlt : d < Real.pi * 2 := lt_of_abs_lt hdb
        constructor <;> push_cast <;> nlinarith
    · have hqneg : d / Real.pi < 0 := div_neg_of_neg_of_pos h0 hpi
      have hgt : -(Real.pi * 2) < d := neg_lt_of_abs_lt hdb
      rcases lt_or_le (-Real.pi) d with h1 | h1
      · have hcl : jsTrunc (d / Real.pi) = 0 := by
          rw [jsTrunc_of_neg hqneg]
          rw [Int.ceil_eq_iff]
          constructor
          · push_cast
            rw [lt_div_iff hpi]
            nlinarith
          · push_cast
            exact hqneg.le
        rw [hsd, hcl]
        rw [abs_le]
        constructor <;> push_cast <;> nlinarith
      · have hcl : jsTrunc (d / Real.pi) = -1 := by
          rw [jsTrunc_of_neg hqneg]
          rw [Int.ceil_eq_iff]
          constructor
          · push_cast
            rw [lt_div_iff hpi]
            nlinarith
          · push_cast
            rw [div_le_iff hpi]
            nlinarith
        rw [hsd, hcl]
        rw [abs_le]
        constructor <;> push_cast <;> nlinarith

theorem jsRem_zero (y : ℝ) : jsRem 0 y = 0 := by
  simp [jsRem, jsTrunc]

theorem lerp_self (x t : ℝ) : lerp x x t = x := by
  simp [lerp]

theorem lerpShortestAngle_self (a t : ℝ) : lerpShortestAngle a a t = a := by
  have h : shortestAngleDiff a a = 0 := by
    rw [shortestAngleDiff, sub_self, jsRem_zero, mul_zero, jsRem_zero, sub_zero]
  rw [lerpShortestAngle, h, zero_mul, add_zero]

/-- C2: `lerpShortestAngle` interpolates along the angular difference
wrapped by `shortestAngleDiff` — congruent to `b - a` modulo `2π` and of
magnitude at most `π` (it lands in the closed interval `[-π, π]`, not the
half-open `(-π, π]`; see the boundary counterexample) — and on the claim's
concrete test `a = 3`, `b = -3`, `t = 0.5` the result is exactly `π`, which
crosses the `±π` boundary the short way and lies outside `(-1, 1)`. -/
theorem lerpShortestAngle_shortest_arc :
    (∀ a b t : ℝ,
      (∃ k : ℤ, shortestAngleDiff a b = (b - a) + Real.pi * 2 * k) ∧
      |shortestAngleDiff a b| ≤ Real.pi ∧
      lerpShortestAngle a b t = a + shortestAngleDiff a b * t) ∧
    lerpShortestAngle 3 (-3) (1 / 2) = Real.pi ∧
    ¬(-1 < lerpShortestAngle 3 (-3) (1 / 2) ∧ lerpShortestAngle 3 (-3) (1 / 2) < 1) := by
  have hpi3 : (3:ℝ) < Real.pi := Real.pi_gt_three
  have hpi6 : Real.pi ≤ 6 := le_trans Real.pi_le_four (by norm_num)
  have h2pi : (0:ℝ) < Real.pi * 2 := by linarith
  have hd : jsRem ((-3) - 3) (Real.pi * 2) = -6 := by
    have hq : ((-3:ℝ) - 3) / (Real.pi * 2) < 0 :=
      div_neg_of_neg_of_pos (by norm_num) h2pi
    have hc : jsTrunc (((-3:ℝ) - 3) / (Real.pi * 2)) = 0 := by
      rw [jsTrunc_of_neg hq, Int.ceil_eq_iff]
      constructor
      · push_cast
        rw [lt_div_iff h2pi]
        linarith
      · push_cast
        exact hq.le
    rw [jsRem, hc]
    norm_num
  have hd2 : jsRem (2 * (-6)) (Real.pi * 2) = Real.pi * 2 - 12 := by
    have hc : jsTrunc ((2 * (-6:ℝ)) / (Real.pi * 2)) = -1 := by
      have hq : (2 * (-6:ℝ)) / (Real.pi * 2) < 0 :=
        div_neg_of_neg_of_pos (by norm_num) h2pi
      rw [jsTrunc_of_neg hq, Int.ceil_eq_iff]
      constructor
      · push_cast
        rw [lt_div_iff h2pi]
        linarith
      · push_cast
        rw [div_le_iff h2pi]
        linarith
    rw [jsRem, hc]
    push_cast
    ring
  have hs : shortestAngleDiff 3 (-3) = Real.pi * 2 - 6 := by
    rw [shortestAngleDiff, hd, hd2]
    ring
  refine ⟨fun a b t => ?_, ?_, ?_⟩
  · obtain ⟨⟨k, hk⟩, hb⟩ := shortestAngleDiff_spec a b
    exact ⟨⟨k, hk⟩, hb, rfl⟩
  · rw [lerpShortestAngle, hs]
    ring
  · rw [lerpShortestAngle, hs]
    rintro ⟨-, hlt⟩
    nlinarith

/-- C2 counterexample: for an angular difference of exactly `π` (both arcs
equally short) the code's wrapped difference is `-π`, which is *not* in the
claimed interval `(-π, π]`; the interpolation at `t = 0.5` therefore runs
through `-π/2`, not `+π/2`. -/
theorem shortestAngleDiff_pi_boundary :
    shortestAngleDiff 0 Real.pi = -Real.pi ∧
    ¬(-Real.pi < shortestAngleDiff 0 Real.pi) ∧
    lerpShortestAngle 0 Real.pi (1 / 2) = -(Real.pi / 2) := by
  have hpi : (0:ℝ) < Real.pi := Real.pi_pos
  have h2pi : (0:ℝ) < Real.pi * 2 := by linarith
  have hd : jsRem (Real.pi - 0) (Real.pi * 2) = Real.pi := by
    have hq : (Real.pi - 0) / (Real.pi * 2) = 1 / 2 := by
      rw [sub_zero]
      rw [div_eq_iff (ne_of_gt h2pi)]
      ring
    have hc : jsTrunc ((Real.pi - 0) / (Real.pi * 2)) = 0 := by
      rw [hq, jsTrunc_of_nonneg (by norm_num)]
      rw [Int.floor_eq_zero_iff, Set.mem_Ico]
      norm_num
    rw [jsRem, hc]
    push_cast
    ring
  have hd2 : jsRem (2 * Real.pi) (Real.pi * 2) = 0 := by
    have hq : (2 * Real.pi) / (Real.pi * 2) = 1 := by
      rw [div_eq_iff (ne_of_gt h2pi)]
      ring
    have hc : jsTrunc ((2 * Real.pi) / (Real.pi * 2)) = 1 := by
      rw [hq, jsTrunc_of_nonneg (by norm_num)]
      exact Int.floor_one
    rw [jsRem, hc]
    push_cast
    ring
  have hs : shortestAngleDiff 0 Real.pi = -Real.pi := by
    rw [shortestAngleDiff, hd, hd2]
    ring
  refine ⟨hs, ?_, ?_⟩
  · rw [hs]
    exact lt_irrefl _
  · rw [lerpShortestAngle, hs]
    ring

/-- C8: the t-shirt smoothing step is the identity when there is no previous
placement (first frame) and when the candidate equals the previous placement
(idempotence), for arbitrary smoothing factors; the yaw path reduces to
`lerpShortestAngle a a t = a`. -/
theorem smoothTShirt_identity :
    ∀ (f : SmoothingFactors) (P : Alignment) (a t : ℝ),
      smoothTShirt f none P = P ∧ smoothTShirt f (some P) P = P ∧
      lerpShortestAngle a a t = a := by
  intro f P a t
  refine ⟨rfl, ?_, lerpShortestAngle_self a t⟩
  rw [smoothTShirt]
  ext <;> simp [lerp_self, lerpShortestAngle_self]

/-- C4: on a front-facing, level head (eye centers at equal height and depth,
`D` pixels apart, nose tip present) the glasses strategy reports
`visible = true`, roll exactly `0`, and scale
`clamp(D / VIDEO_WIDTH * 20, 0.5, 4.0)`. -/
theorem glassesAlignment_level_head (L : LandmarkSet) (uvw : ℝ → ℝ → ℝ → Point3)
    (p q n : Point3) (D : ℝ) (h159 : L 159 = some p) (h386 : L 386 = some q)
    (h1 : L 1 = some n) (hy : q.y = p.y) (hz : q.z = p.z) (hD : q.x - p.x = D)
    (hDpos : 0 < D) :
    (glassesAlignment L uvw).visible = true ∧
    (glassesAlignment L uvw).rotation.roll = 0 ∧
    (glassesAlignment L uvw).scale = max 0.5 (min 4.0 (D / VIDEO_WIDTH * 20)) := by
  have hyz : q.y - p.y = 0 := by
    rw [hy]
    ring
  have hzz : q.z - p.z = 0 := by
    rw [hz]
    ring
  have hdist : Real.sqrt ((q.x - p.x) ^ 2 + (q.y - p.y) ^ 2 + (q.z - p.z) ^ 2) = D := by
    rw [hyz, hzz, hD]
    norm_num
    exact Real.sqrt_sq hDpos.le
  refine ⟨?_, ?_, ?_⟩
  · simp only [glassesAlignment, h159, h386, h1]
  · simp only [glassesAlignment, h159, h386, h1]
    rw [hyz, hD, jsAtan2_zero_of_pos hDpos, neg_zero]
  · simp only [glassesAlignment, h159, h386, h1]
    rw [hdist]

theorem glassesAlignment_level_head_witness :
    (glassesAlignment levelFace uvId).visible = true ∧
    (glassesAlignment levelFace uvId).rotation.roll = 0 ∧
    (glassesAlignment levelFace uvId).scale = max 0.5 (min 4.0 ((72:ℝ) / VIDEO_WIDTH * 20)) :=
  glassesAlignment_level_head levelFace uvId ⟨300, 200, 0⟩ ⟨372, 200, 0⟩
    ⟨336, 240, 0⟩ 72 rfl rfl rfl (by norm_num) (by norm_num) (by norm_num)
    (by norm_num)

/-- C5: on a pose record with both shoulders present but a hip missing, the
t-shirt strategy hides its accessory while the necklace strategy (which needs
shoulders only) reports a visible placement. -/
theorem shirt_hidden_necklace_visible (L : LandmarkSet)
    (uvw : ℝ → ℝ → ℝ → Point3) (last : Option Alignment) (s1 s2 : Point3)
    (h11 : L 11 = some s1) (h12 : L 12 = some s2)
    (hhip : L 23 = none ∨ L 24 = none) :
    (tShirtAlignment last L uvw).1.visible = false ∧
    (necklaceAlignment L uvw).visible = true := by
  constructor
  · rcases hhip with h | h
    · rcases h24e : L 24 with _ | v
      · simp [tShirtAlignment, h11, h12, h, h24e]
      · simp [tShirtAlignment, h11, h12, h, h24e]
    · rcases h23e : L 23 with _ | v
      · simp [tShirtAlignment, h11, h12, h, h23e]
      · simp [tShirtAlignment, h11, h12, h, h23e]
  · simp [necklaceAlignment, h11, h12]

theorem shirt_hidden_necklace_visible_witness :
    (tShirtAlignment none poseNoHips uvId).1.visible = false ∧
    (necklaceAlignment poseNoHips uvId).visible = true :=
  shirt_hidden_necklace_visible poseNoHips uvId none ⟨0.2, 0.5, 0⟩
    ⟨0.8, 0.5, 0⟩ rfl rfl (Or.inl rfl)

theorem averagePoints_none_of_all_missing (L : LandmarkSet) (i1 i2 i3 i4 : ℕ)
    (h1 : L i1 = none) (h2 : L i2 = none) (h3 : L i3 = none) (h4 : L i4 = none) :
    averagePoints L [i1, i2, i3, i4] = none := by
  simp [averagePoints, h1, h2, h3, h4]

/-- C3 (amended): every strategy is a total function (the embedding has no
exception path) returning `visible = false` whenever the landmarks it
null-checks are absent — for glasses any of 159/386/1, for the necklace
either of 11/12, for the t-shirt any of 11/12/23/24, and for earrings either
eye center 159/386 or an *entire* four-point ear cluster; a partially missing
ear cluster is tolerated by averaging the remaining points (see the
counterexample). -/
theorem strategies_hide_on_missing_landmarks (L : LandmarkSet)
    (uvw : ℝ → ℝ → ℝ → Point3) (last : Option Alignment) :
    ((L 159 = none ∨ L 386 = none ∨ L 1 = none) →
      (glassesAlignment L uvw).visible = false) ∧
    ((L 159 = none ∨ L 386 = none ∨
        (L 234 = none ∧ L 93 = none ∧ L 132 = none ∧ L 127 = none) ∨
        (L 454 = none ∧ L 323 = none ∧ L 361 = none ∧ L 356 = none)) →
      (earringsAlignment L uvw).visible = false) ∧
    ((L 11 = none ∨ L 12 = none) → (necklaceAlignment L uvw).visible = false) ∧
    ((L 11 = none ∨ L 12 = none ∨ L 23 = none ∨ L 24 = none) →
      (tShirtAlignment last L uvw).1.visible = false) := by
  refine ⟨?_, ?_, ?_, ?_⟩
  · intro h
    rcases h159e : L 159 with _ | a <;> rcases h386e : L 386 with _ | b <;>
      rcases h1e : L 1 with _ | c <;> simp_all [glassesAlignment]
  · intro h
    have hred : averagePoints L [234, 93, 132, 127] = none ∨
        averagePoints L [454, 323, 361, 356] = none ∨
        L 159 = none ∨ L 386 = none := by
      rcases h with h | h | h | h
      · exact Or.inr (Or.inr (Or.inl h))
      · exact Or.inr (Or.inr (Or.inr h))
      · exact Or.inl (averagePoints_none_of_all_missing L _ _ _ _ h.1 h.2.1 h.2.2.1 h.2.2.2)
      · exact Or.inr (Or.inl (averagePoints_none_of_all_missing L _ _ _ _ h.1 h.2.1 h.2.2.1 h.2.2.2))
    rcases hLe : averagePoints L [234, 93, 132, 127] with _ | pl <;>
      rcases hRe : averagePoints L [454, 323, 361, 356] with _ | pr <;>
      rcases h159e : L 159 with _ | a <;> rcases h386e : L 386 with _ | b <;>
      simp_all [earringsAlignment]
  · intro h
    rcases h11e : L 11 with _ | a <;> rcases h12e : L 12 with _ | b <;>
      simp_all [necklaceAlignment]
  · intro h
    rcases h11e : L 11 with _ | a <;> rcases h12e : L 12 with _ | b <;>
      rcases h23e : L 23 with _ | c <;> rcases h24e : L 24 with _ | d <;>
      simp_all [tShirtAlignment]

theorem strategies_hide_on_missing_landmarks_witness :
    (glassesAlignment noLandmarks uvId).visible = false ∧
    (earringsAlignment noLandmarks uvId).visible = false ∧
    (necklaceAlignment noLandmarks uvId).visible = false ∧
    (tShirtAlignment none noLandmarks uvId).1.visible = false := by
  obtain ⟨hg, he, hn, ht⟩ := strategies_hide_on_missing_landmarks noLandmarks uvId none
  exact ⟨hg (Or.inl rfl), he (Or.inl rfl), hn (Or.inl rfl), ht (Or.inl rfl)⟩

/-- C3 counterexample: with the full 468-point record in which exactly the
named landmark index 234 (`LANDMARK_INDICES.leftEarLobe`, first point of the
left ear cluster) is missing, the earrings strategy still returns
`visible = true` — there is no defensive null-check on each named index;
the cluster average silently drops the missing point. -/
theorem earrings_visible_with_missing_named_index :
    faceMissing234 234 = none ∧
    (earringsAlignment faceMissing234 uvId).visible = true := by
  exact ⟨rfl, rfl⟩

theorem length_flatMap_triple {α β : Type} (f g h : α → β) (l : List α) :
    (l.flatMap (fun x => [f x, g x, h x])).length = 3 * l.length := by
  induction l with
  | nil => rfl
  | cons a as ih =>
    simp only [List.flatMap_cons, List.length_append, ih, List.length_cons,
      List.length_nil]
    ring

theorem length_flattenTriangulation (tri : List (ℕ × ℕ × ℕ)) :
    (flattenTriangulation tri).length = 3 * tri.length :=
  length_flatMap_triple _ _ _ tri

/-- C6: the occlusion-mesh update hides the occluder and leaves its geometry
untouched when fewer than 468 face points arrive; with exactly 468 points it
marks it visible, writes a vertex buffer of exactly three floats per landmark
(non-empty), and an index buffer whose length — three indices per triangle of
the fixed triangulation table — is a multiple of 3. -/
theorem occluder_update_spec (uvw : ℝ → ℝ → ℝ → Point3)
    (tri : List (ℕ × ℕ × ℕ)) (pts : List Point3) (occ : Occluder) :
    (pts.length < 468 →
      updateFaceOccluderFromFaceLandmarks uvw tri (some pts) occ =
        { occ with visible := false }) ∧
    (pts.length = 468 →
      (updateFaceOccluderFromFaceLandmarks uvw tri (some pts) occ).visible = true ∧
      (updateFaceOccluderFromFaceLandmarks uvw tri (some pts) occ).positions.length = 3 * 468 ∧
      (updateFaceOccluderFromFaceLandmarks uvw tri (some pts) occ).indices.length % 3 = 0) := by
  constructor
  · intro h
    simp [updateFaceOccluderFromFaceLandmarks, h]
  · intro h
    have hnot : ¬ pts.length < 468 := by omega
    refine ⟨?_, ?_, ?_⟩
    · simp [updateFaceOccluderFromFaceLandmarks, hnot]
    · simp only [updateFaceOccluderFromFaceLandmarks, if_neg hnot]
      rw [length_flatMap_triple, h]
    · simp only [updateFaceOccluderFromFaceLandmarks, if_neg hnot]
      rw [length_flattenTriangulation]
      omega

theorem occluder_update_spec_witness :
    (updateFaceOccluderFromFaceLandmarks uvId [(0, 1, 2)]
        (some (List.replicate 400 ⟨0.5, 0.5, 0⟩)) ⟨false, [], []⟩ =
      { visible := false, positions := [], indices := [] }) ∧
    ((updateFaceOccluderFromFaceLandmarks uvId [(0, 1, 2)]
        (some (List.replicate 468 ⟨0.5, 0.5, 0⟩)) ⟨false, [], []⟩).visible = true ∧
      (updateFaceOccluderFromFaceLandmarks uvId [(0, 1, 2)]
        (some (List.replicate 468 ⟨0.5, 0.5, 0⟩)) ⟨false, [], []⟩).positions.length = 3 * 468 ∧
      (updateFaceOccluderFromFaceLandmarks uvId [(0, 1, 2)]
        (some (List.replicate 468 ⟨0.5, 0.5, 0⟩)) ⟨false, [], []⟩).indices.length % 3 = 0) :=
  ⟨(occluder_update_spec uvId [(0, 1, 2)] (List.replicate 400 ⟨0.5, 0.5, 0⟩)
      ⟨false, [], []⟩).1 (by rw [List.length_replicate]; norm_num),
   (occluder_update_spec uvId [(0, 1, 2)] (List.replicate 468 ⟨0.5, 0.5, 0⟩)
      ⟨false, [], []⟩).2 (List.length_replicate 468 ⟨0.5, 0.5, 0⟩)⟩

/-- C7 (amended): the landmark adapter rejects only a null or empty array —
there is no minimum-count check — so face arrays shorter than 468 entries and
pose arrays shorter than 33 entries are converted to pixel points and handed
to the strategies like any full detection. -/
theorem adapter_accepts_short_arrays (l m : List Point3)
    (hl : l.length ≠ 0) (hm : m.length ≠ 0) :
    convertFaceLandmarksToPixelPoints (some l) = some (l.map toPixelPoint) ∧
    convertPoseLandmarksToPixelPoints (some m) = some (m.map toPixelPoint) := by
  constructor
  · simp [convertFaceLandmarksToPixelPoints, hl]
  · simp [convertPoseLandmarksToPixelPoints, hm]

theorem adapter_accepts_short_arrays_witness :
    convertFaceLandmarksToPixelPoints (some [(⟨0.5, 0.5, 0⟩ : Point3)]) =
      some ([(⟨0.5, 0.5, 0⟩ : Point3)].map toPixelPoint) ∧
    convertPoseLandmarksToPixelPoints (some [(⟨0.5, 0.5, 0⟩ : Point3)]) =
      some ([(⟨0.5, 0.5, 0⟩ : Point3)].map toPixelPoint) :=
  adapter_accepts_short_arrays [⟨0.5, 0.5, 0⟩] [⟨0.5, 0.5, 0⟩]
    (by simp) (by simp)

/-- C7 counterexample: a face landmark array with 400 entries — fewer than
the 468 required by face-dependent strategies — is not rejected: the adapter
converts it, and the glasses strategy consumes the result as a valid
detection, returning `visible = true` (indices 1, 159 and 386 all exist in a
400-entry array). -/
theorem short_face_array_consumed :
    face400.length = 400 ∧
    convertFaceLandmarksToPixelPoints (some face400) = some (face400.map toPixelPoint) ∧
    (glassesAlignment (asLandmarkSet (face400.map toPixelPoint)) uvId).visible = true := by
  have hlen : face400.length = 400 := List.length_replicate 400 ⟨0.5, 0.5, 0⟩
  refine ⟨hlen, by simp [convertFaceLandmarksToPixelPoints, hlen], ?_⟩
  have h : ∀ i, i < 400 →
      asLandmarkSet (face400.map toPixelPoint) i = some (toPixelPoint ⟨0.5, 0.5, 0⟩) := by
    intro i hi
    show (face400.map toPixelPoint)[i]? = _
    rw [face400, List.map_replicate, List.getElem?_replicate, if_pos hi]
  simp only [glassesAlignment, h 159 (by norm_num), h 386 (by norm_num),
    h 1 (by norm_num)]

theorem JNum.mul_nonfin (x : JNum) : JNum.mul x JNum.nonfin = JNum.nonfin := by
  cases x <;> rfl

theorem JNum.add_fin_nonfin (a : ℝ) :
    JNum.add (JNum.fin a) JNum.nonfin = JNum.nonfin := rfl

theorem JNum.div_nonfin (x : JNum) : JNum.div x JNum.nonfin = JNum.nonfin := by
  cases x <;> rfl

theorem JNum.div_by_fin_zero (x : JNum) :
    JNum.div x (JNum.fin 0) = JNum.nonfin := by
  cases x <;> simp [JNum.div]

theorem JNum.div_fin_fin (a b : ℝ) (h : b ≠ 0) :
    JNum.div (JNum.fin a) (JNum.fin b) = JNum.fin (a / b) := by
  simp [JNum.div, h]

/-- C1 (amended): `uvToWorld` contains no guard.  Whenever the unprojected
ray direction's z-component vanishes (ray parallel to the target plane
`z = planeZ`), the division `t = (planeZ - cam.position.z) / dir.z` divides
by zero and the non-finite value propagates into every component of the
returned point — the function neither returns a defined sentinel nor raises
nor skips the update. -/
theorem uvToWorld_unguarded (cam : Cam) (u v planeZ : ℝ)
    (hz : rayDirZ cam u v = 0) :
    uvToWorld cam u v planeZ = ⟨JNum.nonfin, JNum.nonfin, JNum.nonfin⟩ := by
  have hz' : (cam.unprojNDC ⟨u * 2 - 1, 1 - v * 2, 0.5⟩).z - cam.pos.z = 0 := hz
  simp only [uvToWorld, hz']
  generalize (cam.unprojNDC ⟨u * 2 - 1, 1 - v * 2, 0.5⟩).x - cam.pos.x = dx
  generalize (cam.unprojNDC ⟨u * 2 - 1, 1 - v * 2, 0.5⟩).y - cam.pos.y = dy
  generalize Real.sqrt (dx ^ 2 + dy ^ 2 + 0 ^ 2) = len
  rcases eq_or_ne len 0 with hlen | hlen
  · rw [hlen]
    simp only [JNum.div_by_fin_zero, JNum.div_nonfin, JNum.mul_nonfin,
      JNum.add_fin_nonfin]
  · rw [JNum.div_fin_fin dx len hlen, JNum.div_fin_fin dy len hlen,
      JNum.div_fin_fin 0 len hlen, zero_div, JNum.div_by_fin_zero,
      JNum.mul_nonfin, JNum.mul_nonfin, JNum.mul_nonfin, JNum.add_fin_nonfin,
      JNum.add_fin_nonfin, JNum.add_fin_nonfin]

theorem uvToWorld_unguarded_witness :
    uvToWorld camSide2 1 0 0 = ⟨JNum.nonfin, JNum.nonfin, JNum.nonfin⟩ :=
  uvToWorld_unguarded camSide2 1 0 0 (by norm_num [rayDirZ, camSide2])

/-- C1 counterexample: for a sideways-looking camera state and the screen
coordinate `(0, 0)`, the unprojected ray direction has a zero z-component and
`uvToWorld` returns the propagated non-finite point — it does not return a
defined sentinel, raise a numeric error, or skip the update. -/
theorem uvToWorld_divzero_propagates :
    uvToWorld camSide 0 0 0 = ⟨JNum.nonfin, JNum.nonfin, JNum.nonfin⟩ := by
  have hlen : Real.sqrt (((0:ℝ) * 2 - 1 - 0) ^ 2 + (1 - (0:ℝ) * 2 - 0) ^ 2 + ((1:ℝ) - 1) ^ 2) ≠ 0 := by
    rw [show (((0:ℝ) * 2 - 1 - 0) ^ 2 + (1 - (0:ℝ) * 2 - 0) ^ 2 + ((1:ℝ) - 1) ^ 2) = 2 by norm_num]
    rw [Real.sqrt_ne_zero']
    norm_num
  simp only [uvToWorld, camSide]
  rw [JNum.div_fin_fin _ _ hlen, JNum.div_fin_fin _ _ hlen,
    JNum.div_fin_fin _ _ hlen,
    show ((1:ℝ) - 1) / Real.sqrt (((0:ℝ) * 2 - 1 - 0) ^ 2 + (1 - (0:ℝ) * 2 - 0) ^ 2 + ((1:ℝ) - 1) ^ 2) = 0 by
      rw [show ((1:ℝ) - 1) = 0 by norm_num, zero_div],
    JNum.div_by_fin_zero]
  simp only [JNum.mul_nonfin, JNum.add_fin_nonfin]

/-- C9 (amended): the accessory-swap path never clears the t-shirt smoothing
state: `cleanupAccessories` (called whenever the selected accessory changes)
removes the scene objects but leaves the module-level `lastTShirtAlignment`
untouched, for every viewer state. -/
theorem cleanupAccessories_keeps_smoothing_state (s : ViewerState) :
    (cleanupAccessories s).lastTShirtAlignment = s.lastTShirtAlignment ∧
    (cleanupAccessories s).accessoryObj = none ∧
    (cleanupAccessories s).instances = [] :=
  ⟨rfl, rfl, rfl⟩

/-- C9 counterexample: after an accessory swap (`cleanupAccessories`) the
smoothing state still holds the pre-swap placement, and the first new
t-shirt placement is blended against it: its scale is
`lerp(1, 2.4, 0.3) = 1.42`, not the candidate scale `2.4` that a cleared
state (previous = null, first-frame identity) produces on the same frame. -/
theorem tshirt_blends_across_accessory_swap :
    (cleanupAccessories staleState).lastTShirtAlignment = some stalePlacement ∧
    (tShirtAlignment (cleanupAccessories staleState).lastTShirtAlignment
      poseFull uvId).1.scale = 1.42 ∧
    (tShirtAlignment none poseFull uvId).1.scale = 2.4 ∧
    (tShirtAlignment (cleanupAccessories staleState).lastTShirtAlignment
        poseFull uvId).1.scale ≠
      (tShirtAlignment none poseFull uvId).1.scale := by
  have h11 : poseFull 11 = some ⟨0.2, 0.5, 0⟩ := rfl
  have h12 : poseFull 12 = some ⟨0.8, 0.5, 0⟩ := rfl
  have h23 : poseFull 23 = some ⟨0.3, 0.9, 0⟩ := rfl
  have h24 : poseFull 24 = some ⟨0.7, 0.9, 0⟩ := rfl
  have hsd : Real.sqrt (((0.8:ℝ) - 0.2) ^ 2 + ((0.5:ℝ) - 0.5) ^ 2) = 0.6 := by
    rw [show (((0.8:ℝ) - 0.2) ^ 2 + ((0.5:ℝ) - 0.5) ^ 2) = 0.6 ^ 2 by norm_num]
    exact Real.sqrt_sq (by norm_num)
  have habs : |((0.5:ℝ) + 0.5) / 2 - ((0.9:ℝ) + 0.9) / 2| = 0.4 := by
    rw [abs_of_nonpos (by norm_num)]
    norm_num
  have hmax : max ((0.6:ℝ) * 4) (0.4 * 1.8) = 2.4 := by
    rw [max_eq_left (by norm_num)]
    norm_num
  have hscale : (tShirtAlignment none poseFull uvId).1.scale = 2.4 := by
    simp only [tShirtAlignment, h11, h12, h23, h24, smoothTShirt]
    rw [hsd, habs, hmax]
  have hblend : (tShirtAlignment (some stalePlacement) poseFull uvId).1.scale = 1.42 := by
    simp only [tShirtAlignment, h11, h12, h23, h24, smoothTShirt, stalePlacement,
      SMOOTHING, lerp]
    rw [hsd, habs, hmax]
    norm_num
  have hstate : (cleanupAccessories staleState).lastTShirtAlignment =
      some stalePlacement := rfl
  refine ⟨hstate, ?_, hscale, ?_⟩
  · rw [hstate, hblend]
  · rw [hstate, hblend, hscale]
    norm_num

theorem mem_updateInstances (al : Alignment) :
    ∀ (objs : List SceneObject) (ps : List Point3) (o : SceneObject),
      o ∈ updateInstances al ps objs →
      o ∈ objs ∨ ∃ p o0, o = applyAlignmentTo al p o0 := by
  intro objs
  induction objs with
  | nil =>
    intro ps o ho
    cases ps <;> simp [updateInstances] at ho
  | cons o0 os ih =>
    intro ps o ho
    cases ps with
    | nil =>
      rw [updateInstances] at ho
      rcases List.mem_cons.mp ho with h | h
      · exact Or.inl (h ▸ List.mem_cons_self o0 os)
      · rcases ih [] o h with h2 | h2
        · exact Or.inl (List.mem_cons_of_mem o0 h2)
        · exact Or.inr h2
    | cons p ps =>
      rw [updateInstances] at ho
      rcases List.mem_cons.mp ho with h | h
      · exact Or.inr ⟨p, o0, h⟩
      · rcases ih ps o h with h2 | h2
        · exact Or.inl (List.mem_cons_of_mem o0 h2)
        · exact Or.inr h2

theorem clamped_scale_bounds (x : ℝ) :
    0.1 ≤ max 0.1 (min 4.0 x) ∧ max 0.1 (min 4.0 x) ≤ 4 :=
  ⟨le_max_left _ _, max_le (by norm_num) ((min_le_left _ _).trans (by norm_num))⟩

/-- C10: whatever scale value the strategy produced — in particular the
t-shirt's unclamped `max(shoulderWidth * 4, torsoHeight * 1.8)` — every scene
object that `updateAccessoryAlignment` writes for a visible alignment gets
the clamped scale `Math.max(0.1, Math.min(4.0, scale))`, which lies in
`[0.1, 4.0]`; any other object is left in its previous state. -/
theorem updateAccessoryAlignment_clamps_scale (al : Alignment) (s : ViewerState)
    (h : al.visible = true) :
    (∀ o ∈ (updateAccessoryAlignment (some al) s).instances,
      o ∈ s.instances ∨ (0.1 ≤ o.scale ∧ o.scale ≤ 4)) ∧
    (∀ o, (updateAccessoryAlignment (some al) s).accessoryObj = some o →
      s.accessoryObj = some o ∨ (0.1 ≤ o.scale ∧ o.scale ≤ 4)) := by
  by_cases hmulti : (al.isMultiple && !s.instances.isEmpty) = true
  · constructor
    · intro o ho
      simp only [updateAccessoryAlignment, h, if_true, hmulti] at ho
      rcases mem_updateInstances al s.instances al.positions o ho with h2 | ⟨p, o0, h2⟩
      · exact Or.inl h2
      · refine Or.inr ?_
        rw [h2]
        exact clamped_scale_bounds al.scale
    · intro o ho
      simp only [updateAccessoryAlignment, h, if_true, hmulti] at ho
      exact Or.inl ho
  · rcases hobj : s.accessoryObj with _ | o0
    · constructor
      · intro o ho
        simp only [updateAccessoryAlignment, h, if_true, hmulti, Bool.false_eq_true,
          if_false, hobj] at ho
        exact Or.inl ho
      · intro o ho
        simp only [updateAccessoryAlignment, h, if_true, hmulti, Bool.false_eq_true,
          if_false, hobj] at ho
        exact Or.inl ho
    · constructor
      · intro o ho
        simp only [updateAccessoryAlignment, h, if_true, hmulti, Bool.false_eq_true,
          if_false, hobj] at ho
        exact Or.inl ho
      · intro o ho
        simp only [updateAccessoryAlignment, h, if_true, hmulti, Bool.false_eq_true,
          if_false, hobj, Option.some.injEq] at ho
        refine Or.inr ?_
        rw [← ho]
        exact clamped_scale_bounds al.scale

theorem updateAccessoryAlignment_clamps_scale_witness :
    singleAccessoryState.accessoryObj = some alignedObj ∨
    (0.1 ≤ alignedObj.scale ∧ alignedObj.scale ≤ 4) :=
  (updateAccessoryAlignment_clamps_scale hugeScaleAlignment
    singleAccessoryState rfl).2 alignedObj rfl

end ARWardrobe
